import Mathlib

/-!
Shallow embedding of the core of `big-mon/win-audio-visualizer`
(files `src/audio_processor.py` and `src/components/circular_visualizer.py`),
with theorems settling the frozen claims about its specification.

Machine floats are idealised: pure arithmetic state (the peak trackers and
the capture state) is embedded over `ℚ`, and the parts of the engine that
use trigonometry, square roots, FFTs or logarithms are embedded over `ℝ`.
Randomness (`random.random()`, `random.uniform`, …) is passed explicitly as
record-of-draws arguments, so every function is a pure function of its
inputs, exactly mirroring the imperative source.
-/

namespace WinAudioVisualizer

open Real

/-! ## AudioProcessor (`src/audio_processor.py`) -/

/-- `np.hanning(N)`: the Hann window `0.5 - 0.5*cos(2*pi*n/(N-1))` for
`n = 0, …, N-1`; NumPy special-cases `M = 1` to `[1.]`. -/
noncomputable def hanning (N : ℕ) : List ℝ :=
  if N = 1 then [1]
  else (List.range N).map fun (n : ℕ) => 1/2 - 1/2 * Real.cos (2 * π * (n : ℝ) / ((N : ℝ) - 1))

/-- Coefficient `k` of the discrete Fourier transform of a real sequence,
`X_k = Σ_n x_n · exp(-2πi·k·n/N)`, as computed by `scipy.fft.rfft`. -/
noncomputable def dftCoeff (x : List ℝ) (k : ℕ) : ℂ :=
  ∑ n ∈ Finset.range x.length,
    ((x.getD n 0 : ℝ) : ℂ) * Complex.exp (-(2 * (π : ℂ) * Complex.I * k * n) / x.length)

/-- `scipy.fft.rfft`: the first `N/2 + 1` DFT coefficients of a length-`N`
real input. -/
noncomputable def rfft (x : List ℝ) : List ℂ :=
  (List.range (x.length / 2 + 1)).map (dftCoeff x)

/-- `AudioProcessor.process_audio_data` (src/audio_processor.py:201-226):
window the frame with `np.hanning(len(data))`, take `rfft`, take magnitudes,
clamp below at `1e-10`, convert to dB with `20*log10`, and return the raw
waveform paired with the dB spectrum.  (The `data is None` guard is modelled
by callers only invoking this on present frames.) -/
noncomputable def process_audio_data (data : List ℝ) : List ℝ × List ℝ :=
  let windowed := List.zipWith (· * ·) data (hanning data.length)
  let spectrum := rfft windowed
  let spectrum_mag := spectrum.map fun z => Complex.abs z
  let clamped := spectrum_mag.map fun m => max m (1/10^10)
  let spectrum_db := clamped.map fun m => 20 * Real.logb 10 m
  (data, spectrum_db)

/-- The spectrum computation exactly as claim C2 words it: magnitude is
`|rfft(windowed)| / N` (divided by the frame length), floor-clamped at
`1e-10`, then `20·log10`.  This definition follows the claim's words, to be
compared against `process_audio_data`, which follows the source. -/
noncomputable def claimSpectrumDb (data : List ℝ) : List ℝ :=
  (rfft (List.zipWith (· * ·) data (hanning data.length))).map
    fun z => 20 * Real.logb 10 (max (Complex.abs z / data.length) (1/10^10))

/-! ## WaveformNormalizer (`circular_visualizer.py:309-325`) -/

/-- One peak-tracker update: `m *= 0.995; m = max(m, p)`
(src/components/circular_visualizer.py:309-310 and 314-315). -/
def updateMax (m p : ℚ) : ℚ := max (m * (199/200)) p

/-- `np.max(np.abs(xs))` for the nonempty frames the engine processes
(all entries of `xs.map |·|` are nonnegative, so folding `max` from `0`
returns the largest absolute value). -/
def maxAbs (xs : List ℚ) : ℚ := (xs.map (fun v => |v|)).foldl max 0

/-- The normalization step of `CircularVisualizer.update_plot`
(src/components/circular_visualizer.py:308-316): update both peak trackers,
divide the waveform by the updated `wave_max`, and divide the spectrum by
the constant `100.0`.  Returns
`(wave_max', spectrum_max', normalized_wave, normalized_spectrum)`. -/
def normalizeStep (wave_max spectrum_max : ℚ) (wave_data spectrum_data : List ℚ) :
    ℚ × ℚ × List ℚ × List ℚ :=
  let wave_max' := updateMax wave_max (maxAbs wave_data)
  let normalized_wave := wave_data.map (· / wave_max')
  let spectrum_max' := updateMax spectrum_max (maxAbs spectrum_data)
  let normalized_spectrum := spectrum_data.map (· / 100)
  (wave_max', spectrum_max', normalized_wave, normalized_spectrum)

/-- The normalization exactly as claim C1 words it: both streams are passed
onward as `raw / max` against their own updated trackers.  This definition
follows the claim's words, to be compared against `normalizeStep`, which
follows the source. -/
def claimNormalizeStep (wave_max spectrum_max : ℚ) (wave_data spectrum_data : List ℚ) :
    ℚ × ℚ × List ℚ × List ℚ :=
  let wave_max' := updateMax wave_max (maxAbs wave_data)
  let spectrum_max' := updateMax spectrum_max (maxAbs spectrum_data)
  (wave_max', spectrum_max', wave_data.map (· / wave_max'),
    spectrum_data.map (· / spectrum_max'))

/-! ## Capture lifecycle (`src/audio_processor.py:125-185`) -/

/-- The mutable fields of `AudioProcessor` that the capture lifecycle
touches.  The stream handle is `Option Unit` (`None` / an open handle). -/
structure AudioProcessorState where
  device : Option ℕ
  sample_rate : ℕ
  q : List (List ℝ)
  stream : Option Unit
  running : Bool

/-- `AudioProcessor.stop_capture` (src/audio_processor.py:176-185):
`if self.stream is not None: stop; close; self.stream = None;
self.running = False`.  The function is total — it has no raising path. -/
def stop_capture (s : AudioProcessorState) : AudioProcessorState :=
  if s.stream.isSome then { s with stream := none, running := false } else s

/-! ## VisualizationEngine constants (`circular_visualizer.py:53-118`) -/

/-- `self.base_radius = 0.4` -/
noncomputable def base_radius : ℝ := 2/5
/-- `self.core_radius = 0.15` -/
noncomputable def core_radius : ℝ := 3/20
/-- `self.wave_speed = 0.008` -/
noncomputable def wave_speed : ℝ := 1/125
/-- `self.breath_speed = 0.003` -/
noncomputable def breath_speed : ℝ := 3/1000
/-- `self.breath_depth = 0.06` -/
noncomputable def breath_depth : ℝ := 3/50
/-- `self.hue_shift_speed = 0.001` -/
noncomputable def hue_shift_speed : ℝ := 1/1000
/-- `self.harmonic_factors = [0.1, 0.3, 0.5, 0.7, 0.9]` -/
noncomputable def harmonic_factors : List ℝ := [1/10, 3/10, 1/2, 7/10, 9/10]
/-- `self.harmonic_weights = [0.4, 0.3, 0.15, 0.1, 0.05]` -/
noncomputable def harmonic_weights : List ℝ := [2/5, 3/10, 3/20, 1/10, 1/20]
/-- `self.phase_offsets = [0.0, 0.5, 1.0, 1.5, 2.0]` -/
noncomputable def phase_offsets : List ℝ := [0, 1/2, 1, 3/2, 2]
/-- `self.max_lines = 8` -/
def max_lines : ℕ := 8
/-- `self.line_spawn_chance = 0.02` -/
noncomputable def line_spawn_chance : ℝ := 1/50
/-- `self.line_life_max = 1.0` -/
noncomputable def line_life_max : ℝ := 1

/-! ## Harmonic synthesis (`CircularVisualizer._create_harmonic_wave`,
`circular_visualizer.py:201-238`) -/

/-- One harmonic term of `_create_harmonic_wave`
(circular_visualizer.py:220-224): for `(factor, weight)` paired with its
`phase_offsets` entry, `phase = wave_time*factor + phase_offsets[i] +
phase_offset` and the contribution is `weight * sin(theta*factor + phase)`. -/
noncomputable def harmonicTerm (wave_time phase_offset θ : ℝ) (fwp : (ℝ × ℝ) × ℝ) : ℝ :=
  fwp.1.2 * Real.sin (θ * fwp.1.1 + (wave_time * fwp.1.1 + fwp.2 + phase_offset))

/-- The pre-smoothing wave of `_create_harmonic_wave`, evaluated at one
angular sample `θ`: the sum of the five weighted harmonics plus the breath
term `breath_depth * sin(breath_phase + θ*0.5)`
(circular_visualizer.py:217-228; the code evaluates this same expression
vectorised over the whole `theta` array). -/
noncomputable def harmonicWave (wave_time breath_phase phase_offset θ : ℝ) : ℝ :=
  (((harmonic_factors.zip harmonic_weights).zip phase_offsets).map
      (harmonicTerm wave_time phase_offset θ)).sum
    + breath_depth * Real.sin (breath_phase + θ * (1/2))

/-! ## Particle subsystem (`circular_visualizer.py:104-111` and `444-468`) -/

/-- One particle: `{x, y, vx, vy, size, opacity, life}`
(circular_visualizer.py:105-111). -/
structure Particle where
  x : ℝ
  y : ℝ
  vx : ℝ
  vy : ℝ
  size : ℝ
  opacity : ℝ
  life : ℝ

/-- The random draws consumed by one particle respawn
(circular_visualizer.py:455-468): `u_angle, u_dist` are the two
`random.random()` draws (angle `= u_angle * 2π`, distance
`= u_dist * 0.2 + 0.1`), and `speed`, `size`, `opacity`, `life` are the
`random.uniform(0.0005,0.002)`, `(1.5,3.5)`, `(20,80)`, `(0.8,1.0)` draws. -/
structure RespawnRand where
  u_angle : ℝ
  u_dist : ℝ
  speed : ℝ
  size : ℝ
  opacity : ℝ
  life : ℝ

/-- One iteration of the particle loop of `update_plot`
(circular_visualizer.py:445-468): advance the position by the velocity,
decrement the life by `0.002`, and — if `abs(x) > 1 or abs(y) > 1 or
life <= 0` — respawn near the center with a randomized outward velocity,
size, opacity and life. -/
noncomputable def particleStep (p : Particle) (r : RespawnRand) : Particle :=
  let q : Particle := { p with x := p.x + p.vx, y := p.y + p.vy, life := p.life - 1/500 }
  if 1 < |q.x| ∨ 1 < |q.y| ∨ q.life ≤ 0 then
    let angle := r.u_angle * (2 * π)
    let distance := r.u_dist * (1/5) + 1/10
    let speed := r.speed
    { x := distance * Real.cos angle, y := distance * Real.sin angle,
      vx := speed * Real.cos angle, vy := speed * Real.sin angle,
      size := r.size, opacity := r.opacity, life := r.life }
  else q

/-- The whole `for p in self.particles` loop: every particle is mutated in
place, none is added or removed; particle `i` consumes its own respawn
draws `rs i` when (and only when) its respawn condition fires. -/
noncomputable def particlesStep (ps : List Particle) (rs : ℕ → RespawnRand) : List Particle :=
  ps.mapIdx fun i p => particleStep p (rs i)

/-- The particle pool built in `__init__` (circular_visualizer.py:105-111):
a list comprehension over `range(150)`; `init i` is particle `i` as drawn
(each field drawn by `random.uniform` over the documented ranges). -/
def initParticles (init : ℕ → Particle) : List Particle :=
  (List.range 150).map init

/-- `n` animation ticks acting on the particle pool; `rss t i` is the
respawn randomness available to particle `i` at tick `t`. -/
noncomputable def particlesTicks :
    ℕ → List Particle → (ℕ → ℕ → RespawnRand) → List Particle
  | 0, ps, _ => ps
  | n + 1, ps, rss => particlesTicks n (particlesStep ps (rss 0)) fun t => rss (t + 1)

/-! ## Light-line subsystem (`circular_visualizer.py:114-118`, `240-284`,
`406-442`) -/

/-- One light line: `{start, mid, end, width, hue, life, max_opacity}`,
the three control points stored in polar `(radius, angle)` form
(circular_visualizer.py:276-284).  The `end` key is named `endPt` because
`end` is a Lean keyword. -/
structure LightLine where
  start : ℝ × ℝ
  mid : ℝ × ℝ
  endPt : ℝ × ℝ
  width : ℝ
  hue : ℝ
  life : ℝ
  max_opacity : ℝ

/-- The start-to-end Euclidean distance of a light line, recomputed from its
stored polar control points exactly as `_spawn_light_line` computes it
(circular_visualizer.py:266-268, via `_polar_to_cartesian`). -/
noncomputable def lineDist (l : LightLine) : ℝ :=
  let sx := l.start.1 * Real.cos l.start.2
  let sy := l.start.1 * Real.sin l.start.2
  let ex := l.endPt.1 * Real.cos l.endPt.2
  let ey := l.endPt.1 * Real.sin l.endPt.2
  Real.sqrt ((ex - sx)^2 + (ey - sy)^2)

/-- The random draws consumed by one `_spawn_light_line` attempt:
`u_chance, u_sr, u_sa, u_er` are the four `random.random()` draws
(spawn gate, start-radius factor, start angle, end radius), and
`angle_diff ∈ ±0.1`, `mid_jitter ∈ ±0.05`, `hue_offset ∈ ±0.1`,
`width ∈ [1.5,3]`, `max_opacity ∈ [150,220]` are the remaining
`random.uniform` / `random.randint` draws. -/
structure SpawnRand where
  u_chance : ℝ
  u_sr : ℝ
  u_sa : ℝ
  u_er : ℝ
  angle_diff : ℝ
  mid_jitter : ℝ
  hue_offset : ℝ
  width : ℝ
  max_opacity : ℝ

/-- `CircularVisualizer._spawn_light_line` (circular_visualizer.py:240-284):
if the pool is below `max_lines` and the gate draw passes
(`random.random() < line_spawn_chance * intensity`), build a candidate line
from the draws; the candidate is appended only if its start-to-end
Euclidean distance is at most `0.8`, otherwise it is rejected. -/
noncomputable def spawn_light_line (hue : ℝ) (intensity : ℝ) (r : SpawnRand)
    (pool : List LightLine) : List LightLine :=
  if pool.length < max_lines ∧ r.u_chance < line_spawn_chance * intensity then
    let start_radius := core_radius * (4/5 + r.u_sr * (2/5))
    let start_angle := r.u_sa * (2 * π)
    let end_radius := base_radius + r.u_er * (3/10)
    let end_angle := start_angle + r.angle_diff
    let mid_radius := (start_radius + end_radius) * (1/2)
    let mid_angle := (start_angle + end_angle) * (1/2) + r.mid_jitter
    let sx := start_radius * Real.cos start_angle
    let sy := start_radius * Real.sin start_angle
    let ex := end_radius * Real.cos end_angle
    let ey := end_radius * Real.sin end_angle
    let distance := Real.sqrt ((ex - sx)^2 + (ey - sy)^2)
    if distance ≤ 4/5 then
      pool ++ [{ start := (start_radius, start_angle),
                 mid := (mid_radius, mid_angle),
                 endPt := (end_radius, end_angle),
                 width := r.width,
                 hue := Int.fract (hue + r.hue_offset),
                 life := line_life_max,
                 max_opacity := r.max_opacity }]
    else pool
  else pool

/-- The life-decay/removal part of the `for i, line in
enumerate(self.light_lines)` loop of `update_plot`
(circular_visualizer.py:406-442), with Python's live-cursor semantics:
`line['life'] -= 0.01`; a line whose life reaches `≤ 0` is removed from the
list (the cursor then skips the element that slid into its slot, exactly as
Python's `for` over a mutated list does).  `list.remove(line)` removes the
first element comparing equal to the just-decremented record, which is the
record at the cursor index unless the pool holds an identical duplicate; it
is modelled as removal at the cursor index.  The drawing calls
(`setData`/`setPen`) touch only renderer items, not the pool. -/
noncomputable def decayLoop (lines : List LightLine) (i : ℕ) : List LightLine :=
  if h : i < lines.length then
    let l := lines.get ⟨i, h⟩
    let l' := { l with life := l.life - 1/100 }
    if l'.life ≤ 0 then decayLoop (lines.eraseIdx i) (i + 1)
    else decayLoop (lines.set i l') (i + 1)
  else lines
termination_by lines.length - i
decreasing_by
  · simp only [List.length_eraseIdx, h, if_pos]
    omega
  · simp only [List.length_set]
    omega

/-- The light-line decay pass over the whole pool. -/
noncomputable def decay_light_lines (lines : List LightLine) : List LightLine :=
  decayLoop lines 0

/-- The states the light-line pool can reach: it starts empty
(`self.light_lines = []`, circular_visualizer.py:114) and each audio tick
applies one `_spawn_light_line` attempt (line 332) and one decay pass
(lines 406-442), in some interleaving; no other code touches the pool. -/
inductive LineReach : List LightLine → Prop
  | init : LineReach []
  | spawn (pool : List LightLine) (hue intensity : ℝ) (r : SpawnRand) :
      LineReach pool → LineReach (spawn_light_line hue intensity r pool)
  | decay (pool : List LightLine) :
      LineReach pool → LineReach (decay_light_lines pool)

/-! ## The per-tick engine state and the no-audio tick
(`CircularVisualizer.update_plot`, `circular_visualizer.py:286-512`) -/

/-- The mutable engine state that `update_plot` reads and writes: the
time/phase/hue scalars, the two peak trackers, the three pools, and the
data last pushed to each renderer curve item (`setData` targets). -/
structure VisState where
  wave_time : ℝ
  breath_phase : ℝ
  hue : ℝ
  core_pulse_phase : ℝ
  wave_max : ℝ
  spectrum_max : ℝ
  particles : List Particle
  light_lines : List LightLine
  wave_history : List (List ℝ)
  wave_curve : List (ℝ × ℝ)
  inner_wave_curve : List (ℝ × ℝ)
  outer_wave_curve : List (ℝ × ℝ)
  wave_glow_curve : List (ℝ × ℝ)
  core_circle : List (ℝ × ℝ)
  inner_core : List (ℝ × ℝ)

/-- `update_plot` on a tick where `get_audio_data()` returned `None`
(circular_visualizer.py:295-303): the tick advances `wave_time` by
`wave_speed`, `breath_phase` by `breath_speed` and `hue` by
`hue_shift_speed` modulo `1.0`, and then — because `data is None` — skips
the entire audio branch (lines 303-512).  Nothing else changes and nothing
is raised (the function is total). -/
noncomputable def update_plot_no_data (s : VisState) : VisState :=
  { s with
    wave_time := s.wave_time + wave_speed
    breath_phase := s.breath_phase + breath_speed
    hue := Int.fract (s.hue + hue_shift_speed) }

/-! ## Sample states used by witnesses and counterexamples -/

/-- A capture state with an open stream, as after a successful
`start_capture`. -/
def sampleCapture : AudioProcessorState :=
  { device := none, sample_rate := 44100, q := [], stream := some (), running := true }

/-- A particle that sits outside the unit disk but inside the unit square
(after advancing by its zero velocity), with plenty of life left. -/
noncomputable def sampleEscapedParticle : Particle :=
  { x := 4/5, y := 4/5, vx := 0, vy := 0, size := 2, opacity := 50, life := 1/2 }

/-- A concrete bundle of respawn draws. -/
noncomputable def sampleRespawnRand : RespawnRand :=
  { u_angle := 1, u_dist := 1, speed := 1/1000, size := 2, opacity := 50, life := 9/10 }

/-- A concrete engine state: pulse phase `0`, one particle with life `1/2`,
one light line with life `1/2`. -/
noncomputable def sampleVisState : VisState where
  wave_time := 0
  breath_phase := 0
  hue := 0
  core_pulse_phase := 0
  wave_max := 1/10
  spectrum_max := 1/10
  particles := [sampleEscapedParticle]
  light_lines := [{ start := (3/20, 0), mid := (1/4, 0), endPt := (2/5, 0),
                    width := 2, hue := 0, life := 1/2, max_opacity := 200 }]
  wave_history := []
  wave_curve := []
  inner_wave_curve := []
  outer_wave_curve := []
  wave_glow_curve := []
  core_circle := []
  inner_core := []

/-! ## Supporting lemmas -/

/-- Folding `max` never goes below the starting accumulator. -/
lemma le_foldl_max (a : ℚ) (l : List ℚ) : a ≤ l.foldl max a := by
  induction l generalizing a with
  | nil => exact le_refl a
  | cons x xs ih => exact le_trans (le_max_left a x) (ih (max a x))

/-- `np.max(np.abs(_))` is nonnegative. -/
lemma maxAbs_nonneg (xs : List ℚ) : 0 ≤ maxAbs xs := le_foldl_max 0 _

/-- One `particlesStep` keeps the pool size. -/
lemma particlesStep_length (ps : List Particle) (rs : ℕ → RespawnRand) :
    (particlesStep ps rs).length = ps.length := by
  simp [particlesStep]

/-- Any number of particle ticks keeps the pool size. -/
lemma particlesTicks_length (n : ℕ) (ps : List Particle) (rss : ℕ → ℕ → RespawnRand) :
    (particlesTicks n ps rss).length = ps.length := by
  induction n generalizing ps rss with
  | zero => rfl
  | succ n ih => simpa [particlesTicks, particlesStep_length] using
      (ih (particlesStep ps (rss 0)) fun t => rss (t + 1))

/-! ## Claims -/

/-- C1: the claim says both streams are normalized as `raw / max` against
their own updated peak trackers.  The code normalizes the spectrum by the
constant `100.0` instead of by `spectrum_max`: at trackers `0.1, 0.1`,
waveform `[1]` and spectrum `[50]`, the code passes spectrum `[0.5]` onward
while the claimed normalization gives `[1]`. -/
theorem C1_counterexample :
    normalizeStep (1/10) (1/10) [1] [50] ≠ claimNormalizeStep (1/10) (1/10) [1] [50] := by
  norm_num [normalizeStep, claimNormalizeStep, updateMax, maxAbs, max_def, Prod.ext_iff]

/-- C1 (amended): per tick both peak trackers are updated as
`max' = max(max * 0.995, currentAbsolutePeak)`; the waveform passed onward
is `raw / wave_max'`, but the spectrum passed onward is `raw / 100.0` — the
updated `spectrum_max` tracker is not used for the normalization.  Both
updated trackers dominate `0.995` times their old value and the current
absolute peak (instant attack, 0.5%-per-tick release). -/
theorem C1_normalization (wm sm : ℚ) (w s : List ℚ) :
    (normalizeStep wm sm w s).1 = max (wm * (199/200)) (maxAbs w) ∧
    (normalizeStep wm sm w s).2.1 = max (sm * (199/200)) (maxAbs s) ∧
    (normalizeStep wm sm w s).2.2.1 = w.map (· / (normalizeStep wm sm w s).1) ∧
    (normalizeStep wm sm w s).2.2.2 = s.map (· / 100) ∧
    maxAbs w ≤ (normalizeStep wm sm w s).1 ∧
    wm * (199/200) ≤ (normalizeStep wm sm w s).1 ∧
    maxAbs s ≤ (normalizeStep wm sm w s).2.1 ∧
    sm * (199/200) ≤ (normalizeStep wm sm w s).2.1 := by
  refine ⟨rfl, rfl, rfl, rfl, ?_, ?_, ?_, ?_⟩ <;>
    simp [normalizeStep, updateMax, le_max_left, le_max_right]

/-- C3: the claim says that on a tick with no new audio frame the
time-driven state still advances "exactly as on a tick with audio",
including particle lives, core pulse phase and light-line life decay.  In
the code all of those updates live inside the `if data is not None:` branch
and are skipped: at `sampleVisState` the no-data tick leaves the pulse
phase, particle lives and line lives unchanged instead of advancing them by
`0.02`, `-0.002` and `-0.01`. -/
theorem C3_counterexample :
    (update_plot_no_data sampleVisState).core_pulse_phase = 0 ∧
    (0 : ℝ) + 1/50 ≠ 0 ∧
    (update_plot_no_data sampleVisState).particles.map Particle.life =
      sampleVisState.particles.map Particle.life ∧
    (update_plot_no_data sampleVisState).particles.map Particle.life ≠
      sampleVisState.particles.map (fun p => p.life - 1/500) ∧
    (update_plot_no_data sampleVisState).light_lines.map LightLine.life ≠
      sampleVisState.light_lines.map (fun l => l.life - 1/100) := by
  refine ⟨rfl, by norm_num, rfl, ?_, ?_⟩ <;>
    simp [update_plot_no_data, sampleVisState, sampleEscapedParticle] <;> norm_num

/-- C3 (amended): on a tick where `get_audio_data()` returns `None` the
geometry is not recomputed and the prior curves are kept, and no exception
is raised (the branch is total); of the time-driven state only `wave_time`,
`breath_phase` and `hue` advance (hue cyclically in `[0,1)`), while the
particles, light lines, core pulse phase, peak trackers and wave history
are all left untouched until the next tick with audio. -/
theorem C3_no_data_tick (s : VisState) :
    (update_plot_no_data s).wave_time = s.wave_time + wave_speed ∧
    (update_plot_no_data s).breath_phase = s.breath_phase + breath_speed ∧
    (update_plot_no_data s).hue = Int.fract (s.hue + hue_shift_speed) ∧
    0 ≤ (update_plot_no_data s).hue ∧ (update_plot_no_data s).hue < 1 ∧
    (update_plot_no_data s).core_pulse_phase = s.core_pulse_phase ∧
    (update_plot_no_data s).wave_max = s.wave_max ∧
    (update_plot_no_data s).spectrum_max = s.spectrum_max ∧
    (update_plot_no_data s).particles = s.particles ∧
    (update_plot_no_data s).light_lines = s.light_lines ∧
    (update_plot_no_data s).wave_history = s.wave_history ∧
    (update_plot_no_data s).wave_curve = s.wave_curve ∧
    (update_plot_no_data s).inner_wave_curve = s.inner_wave_curve ∧
    (update_plot_no_data s).outer_wave_curve = s.outer_wave_curve ∧
    (update_plot_no_data s).wave_glow_curve = s.wave_glow_curve ∧
    (update_plot_no_data s).core_circle = s.core_circle ∧
    (update_plot_no_data s).inner_core = s.inner_core :=
  ⟨rfl, rfl, rfl, Int.fract_nonneg _, Int.fract_lt_one _, rfl, rfl, rfl, rfl,
    rfl, rfl, rfl, rfl, rfl, rfl, rfl, rfl⟩

/-- C6: the particle pool is created with exactly 150 particles and every
tick only mutates particles in place, so after any number of ticks under
any randomness the pool still has exactly 150 particles. -/
theorem C6_pool_size_invariant (init : ℕ → Particle) (rss : ℕ → ℕ → RespawnRand) (n : ℕ) :
    (particlesTicks n (initParticles init) rss).length = 150 := by
  rw [particlesTicks_length]
  simp [initParticles]

/-- C9: `stop_capture` is idempotent.  From any state reachable through the
API (in all of which a cleared stream handle implies `running = False`,
since `running = True` is only ever set right after the stream is opened
and both are cleared together), a first `stop_capture` leaves the state not
running with the handle cleared, and a second call changes nothing; neither
call can raise (the function is total). -/
theorem C9_stop_idempotent (s : AudioProcessorState)
    (hinv : s.stream = none → s.running = false) :
    ((stop_capture s).running = false ∧ (stop_capture s).stream = none) ∧
    (stop_capture (stop_capture s)).running = false ∧
    (stop_capture (stop_capture s)).stream = none ∧
    stop_capture (stop_capture s) = stop_capture s := by
  cases h : s.stream with
  | none => simp [stop_capture, h, hinv h]
  | some u => simp [stop_capture, h]

/-- Witness for C9 at a concrete running state with an open stream. -/
theorem C9_stop_idempotent_witness :
    ((stop_capture sampleCapture).running = false ∧
      (stop_capture sampleCapture).stream = none) ∧
    (stop_capture (stop_capture sampleCapture)).running = false ∧
    (stop_capture (stop_capture sampleCapture)).stream = none ∧
    stop_capture (stop_capture sampleCapture) = stop_capture sampleCapture :=
  C9_stop_idempotent sampleCapture (by intro h; simp [sampleCapture] at h)

/-- C10: the peak trackers start at the positive value `0.1`, every tick
maps a positive tracker `v` to `max(0.995·v, p)` with a nonnegative current
peak `p` (an absolute maximum), and that is again positive — so along any
input sequence, including all-silent frames, the tracker stays strictly
positive and the normalization divisions never divide by zero. -/
theorem C10_tracker_positive (m : ℚ) (peaks : List ℚ)
    (hm : 0 < m) (hp : ∀ p ∈ peaks, 0 ≤ p) :
    0 < peaks.foldl updateMax m ∧ ∀ xs : List ℚ, 0 ≤ maxAbs xs := by
  refine ⟨?_, maxAbs_nonneg⟩
  induction peaks generalizing m with
  | nil => exact hm
  | cons p ps ih =>
      refine ih (updateMax m p) ?_ (fun q hq => hp q (List.mem_cons_of_mem p hq))
      exact lt_of_lt_of_le (by positivity) (le_max_left _ (p))

/-- Witness for C10: starting from the initial tracker value `0.1` with
three all-silent frames (peak `0`), the tracker remains positive. -/
theorem C10_tracker_positive_witness :
    0 < ([0, 0, 0] : List ℚ).foldl updateMax (1/10) ∧ ∀ xs : List ℚ, 0 ≤ maxAbs xs :=
  C10_tracker_positive (1/10) [0, 0, 0] (by norm_num)
    (by intro p hp; fin_cases hp <;> norm_num)

/-- A particle after the per-tick advance: position moved by the velocity,
life decremented by the fixed `0.002`. -/
noncomputable def advanceParticle (p : Particle) : Particle :=
  { p with x := p.x + p.vx, y := p.y + p.vy, life := p.life - 1/500 }

/-- A respawned particle, exactly as the reset branch builds it: a position
near the center (distance `0.1–0.3` at a random angle), an outward velocity
along the same angle, and fresh size, opacity and life. -/
noncomputable def respawnParticle (r : RespawnRand) : Particle :=
  { x := (r.u_dist * (1/5) + 1/10) * Real.cos (r.u_angle * (2 * π)),
    y := (r.u_dist * (1/5) + 1/10) * Real.sin (r.u_angle * (2 * π)),
    vx := r.speed * Real.cos (r.u_angle * (2 * π)),
    vy := r.speed * Real.sin (r.u_angle * (2 * π)),
    size := r.size, opacity := r.opacity, life := r.life }

/-- C5: the claim says a particle is respawned exactly when it has exited
the unit disk (`x² + y² > 1`) or its life is exhausted.  The code tests the
unit square (`abs(x) > 1 or abs(y) > 1`): `sampleEscapedParticle` ends the
tick at `(0.8, 0.8)`, strictly outside the unit disk, yet it is merely kept
with its life decremented (`0.5 - 0.002`) — a respawn would have given it
the fresh life `0.9` from the draws. -/
theorem C5_counterexample :
    1 < (sampleEscapedParticle.x + sampleEscapedParticle.vx)^2 +
        (sampleEscapedParticle.y + sampleEscapedParticle.vy)^2 ∧
    particleStep sampleEscapedParticle sampleRespawnRand =
      { x := 4/5, y := 4/5, vx := 0, vy := 0, size := 2, opacity := 50,
        life := 1/2 - 1/500 } := by
  constructor
  · norm_num [sampleEscapedParticle]
  · rw [particleStep, if_neg]
    · simp [sampleEscapedParticle]
    · simp only [sampleEscapedParticle]
      push_neg
      norm_num [abs_le]

/-- C5 (amended): on every tick each particle first advances by its
velocity and loses `0.002` life; it is then respawned near the center (with
randomized outward velocity, size, opacity and life) exactly when its
advanced position leaves the unit *square* (`|x| > 1` or `|y| > 1` — not
the unit disk) or its decremented life is `≤ 0`; every other particle keeps
its advanced position, its velocity, and its decremented life. -/
theorem C5_respawn_condition (p : Particle) (r : RespawnRand) :
    particleStep p r =
      if 1 < |(advanceParticle p).x| ∨ 1 < |(advanceParticle p).y| ∨
          (advanceParticle p).life ≤ 0
      then respawnParticle r else advanceParticle p := by
  simp only [particleStep, advanceParticle, respawnParticle]

/-- The decay pass never grows the pool. -/
lemma decayLoop_length_le (lines : List LightLine) (i : ℕ) :
    (decayLoop lines i).length ≤ lines.length := by
  induction lines, i using decayLoop.induct with
  | case1 lines i h l l' hle ih =>
      rw [decayLoop]
      simp only [dif_pos h]
      rw [if_pos hle]
      exact le_trans ih (by simp [List.length_eraseIdx, h])
  | case2 lines i h l l' hle ih =>
      rw [decayLoop]
      simp only [dif_pos h]
      rw [if_neg hle]
      exact le_trans ih (by simp)
  | case3 lines i h =>
      rw [decayLoop, dif_neg h]

/-- The decay pass preserves any per-line property that does not depend on
the line's remaining life. -/
lemma decayLoop_mem (Q : LightLine → Prop)
    (hQ : ∀ (l : LightLine) (c : ℝ), Q l → Q { l with life := c })
    (lines : List LightLine) (i : ℕ) (hall : ∀ l ∈ lines, Q l) :
    ∀ l ∈ decayLoop lines i, Q l := by
  induction lines, i using decayLoop.induct with
  | case1 lines i h l l' hle ih =>
      rw [decayLoop]
      simp only [dif_pos h]
      rw [if_pos hle]
      exact fun x hx => ih (fun y hy => hall y ((lines.eraseIdx_sublist i).subset hy)) x hx
  | case2 lines i h l l' hle ih =>
      rw [decayLoop]
      simp only [dif_pos h]
      rw [if_neg hle]
      refine fun x hx => ih (fun y hy => ?_) x hx
      rcases List.mem_or_eq_of_mem_set hy with hy' | rfl
      · exact hall y hy'
      · exact hQ _ _ (hall _ (lines.get_mem _ _))
  | case3 lines i h =>
      rw [decayLoop, dif_neg h]
      exact hall

/-- A spawn attempt either leaves the pool unchanged, or — only when the
pool is below `max_lines` — appends exactly one line whose start-to-end
distance passed the `≤ 0.8` check. -/
lemma spawn_light_line_cases (hue intensity : ℝ) (r : SpawnRand) (pool : List LightLine) :
    spawn_light_line hue intensity r pool = pool ∨
    (pool.length < max_lines ∧ ∃ nl, spawn_light_line hue intensity r pool = pool ++ [nl] ∧
      lineDist nl ≤ 4/5) := by
  unfold spawn_light_line
  split
  next hg =>
    dsimp only
    split
    next hd =>
      right
      exact ⟨hg.1, _, rfl, by simpa [lineDist] using hd⟩
    next => left; rfl
  next => left; rfl

/-- C7: at every state the light-line pool can reach, the pool holds at
most `max_lines = 8` lines, and every line in it was admitted with
start-to-end Euclidean distance at most `0.8` — a candidate whose computed
distance exceeds `0.8` is rejected at spawn time and never enters the
pool. -/
theorem C7_line_pool_invariant (pool : List LightLine) (h : LineReach pool) :
    pool.length ≤ max_lines ∧ ∀ l ∈ pool, lineDist l ≤ 4/5 := by
  induction h with
  | init => exact ⟨by simp, by simp⟩
  | spawn pool hue intensity r hr ih =>
      rcases spawn_light_line_cases hue intensity r pool with heq | ⟨hlen, nl, heq, hd⟩
      · rw [heq]; exact ih
      · rw [heq]
        refine ⟨?_, ?_⟩
        · simp only [List.length_append, List.length_singleton]
          omega
        · intro l hl
          rcases List.mem_append.mp hl with h1 | h2
          · exact ih.2 l h1
          · rw [List.mem_singleton] at h2
            subst h2
            exact hd
  | decay pool hr ih =>
      unfold decay_light_lines
      refine ⟨le_trans (decayLoop_length_le pool 0) ih.1, ?_⟩
      exact decayLoop_mem _ (fun l c hl => by simpa [lineDist] using hl) pool 0 ih.2

/-- Witness for C7 at the initial (empty) pool. -/
theorem C7_line_pool_invariant_witness :
    ([] : List LightLine).length ≤ max_lines ∧
      ∀ l ∈ ([] : List LightLine), lineDist l ≤ 4/5 :=
  C7_line_pool_invariant [] LineReach.init

/-- The Hann window has the length of its frame. -/
lemma hanning_length (N : ℕ) : (hanning N).length = N := by
  unfold hanning
  split
  next h => simp [h]
  next => rw [List.length_map, List.length_range]


/-- C8: on every input frame of length `window_size` the spectral step
returns a spectrum of length `window_size/2 + 1`, and — because the
magnitude is clamped to at least `1e-10` before the logarithm — every
element is at least `20·log10(1e-10)`, in particular finite and never
negative infinity. -/
theorem C8_spectrum_shape (ws : ℕ) (data : List ℝ) (h : data.length = ws) :
    (process_audio_data data).2.length = ws / 2 + 1 ∧
    ∀ v ∈ (process_audio_data data).2, 20 * Real.logb 10 (1/10^10) ≤ v := by
  constructor
  · simp [process_audio_data, rfft, List.length_zipWith, hanning_length, h]
  · intro v hv
    simp only [process_audio_data, List.mem_map] at hv
    obtain ⟨m, ⟨m', ⟨z, _, rfl⟩, rfl⟩, rfl⟩ := hv
    have hle : Real.logb 10 (1/10^10) ≤ Real.logb 10 (max (Complex.abs z) (1/10^10)) :=
      Real.logb_le_logb_of_le (by norm_num) (by norm_num) (le_max_right _ _)
    linarith

/-- Witness for C8 on the concrete frame `[0, 1, 0, 0]` of length 4. -/
theorem C8_spectrum_shape_witness :
    (process_audio_data [0, 1, 0, 0]).2.length = 4 / 2 + 1 ∧
    ∀ v ∈ (process_audio_data [0, 1, 0, 0]).2, 20 * Real.logb 10 (1/10^10) ≤ v :=
  C8_spectrum_shape 4 [0, 1, 0, 0] rfl

/-- `np.hanning(4) = [0, 0.75, 0.75, 0]` (`cos(2π/3) = cos(4π/3) = -1/2`). -/
lemma hanning_four : hanning 4 = [0, 3/4, 3/4, 0] := by
  have h1 : Real.cos (2 * π / 3) = -(1/2) := by
    rw [show 2 * π / 3 = π - π/3 by ring, Real.cos_pi_sub, Real.cos_pi_div_three]
  have h2 : Real.cos (2 * π * 2 / 3) = -(1/2) := by
    rw [show 2 * π * 2 / 3 = 2*π - (π - π/3) by ring, Real.cos_two_pi_sub,
      Real.cos_pi_sub, Real.cos_pi_div_three]
  unfold hanning
  norm_num [List.range_succ, h1, h2]

/-- The zeroth `rfft` coefficient of the windowed frame `[0,1,0,0]` is the
plain sum `3/4` of the windowed samples. -/
lemma dftCoeff_windowed_zero : dftCoeff [0, 3/4, 0, 0] 0 = ((3/4 : ℝ) : ℂ) := by
  unfold dftCoeff
  norm_num [Finset.sum_range_succ, Complex.exp_zero]

/-- The windowed frame: `[0,1,0,0] * hanning(4) = [0, 3/4, 0, 0]`. -/
lemma windowed_four :
    List.zipWith (· * ·) ([0, 1, 0, 0] : List ℝ) (hanning 4) = [0, 3/4, 0, 0] := by
  rw [hanning_four]
  norm_num

/-- Head of the spectrum the code computes on `[0,1,0,0]`:
`20·log10(|rfft|[0]) = 20·log10(3/4)` — no division by `N`. -/
lemma process_head :
    (process_audio_data [0, 1, 0, 0]).2.getD 0 0 = 20 * Real.logb 10 (3/4) := by
  have hw : ([0, 1, 0, 0] : List ℝ).length = 4 := rfl
  simp only [process_audio_data, hw, windowed_four]
  have hl : ([0, (3:ℝ)/4, 0, 0] : List ℝ).length = 4 := rfl
  simp only [rfft, hl]
  norm_num [List.range_succ, dftCoeff_windowed_zero, Complex.abs_ofReal]

/-- Head of the spectrum as claim C2 words it on `[0,1,0,0]`:
`20·log10(|rfft|[0]/4) = 20·log10(3/16)`. -/
lemma claim_head :
    (claimSpectrumDb [0, 1, 0, 0]).getD 0 0 = 20 * Real.logb 10 (3/16) := by
  have hw : ([0, 1, 0, 0] : List ℝ).length = 4 := rfl
  simp only [claimSpectrumDb, hw, windowed_four]
  have hl : ([0, (3:ℝ)/4, 0, 0] : List ℝ).length = 4 := rfl
  simp only [rfft, hl]
  norm_num [List.range_succ, dftCoeff_windowed_zero, Complex.abs_ofReal]

/-- C2: the claim says the magnitude fed to the logarithm is the windowed
FFT magnitude *divided by N*.  The code never divides by `N`
(`spectrum_mag = np.abs(spectrum)`): on the frame `[0,1,0,0]` the code's
first spectrum element is `20·log10(3/4)` while the claimed formula gives
`20·log10(3/16)`, and these differ. -/
theorem C2_counterexample :
    (process_audio_data [0, 1, 0, 0]).2 ≠ claimSpectrumDb [0, 1, 0, 0] := by
  intro h
  have h0 := congrArg (fun l => l.getD 0 0) h
  simp only [process_head, claim_head] at h0
  have hlt : Real.logb 10 (3/16) < Real.logb 10 (3/4) :=
    Real.logb_lt_logb (by norm_num) (by norm_num) (by norm_num)
  linarith

/-- The spectrum computation as amended: `20·log10(m)` where `m` is the
raw windowed real-FFT magnitude `|rfft(data·hanning)|` (not divided by
`N`), floor-clamped at `1e-10` before the logarithm. -/
noncomputable def amendedSpectrumDb (data : List ℝ) : List ℝ :=
  (rfft (List.zipWith (· * ·) data (hanning data.length))).map
    fun z => 20 * Real.logb 10 (max (Complex.abs z) (1/10^10))

/-- C2 (amended): for every input frame the spectral step computes
`spectrumDb = 20·log10(m)` where `m` is the windowed real-FFT magnitude
`|rfft(data·hann)|` — with no division by the frame length — floor-clamped
to `1e-10` before the logarithm is taken. -/
theorem C2_spectrum_formula (data : List ℝ) :
    (process_audio_data data).2 = amendedSpectrumDb data := by
  show List.map (fun m => 20 * Real.logb 10 m)
      (List.map (fun m => max m (1/10^10))
        (List.map (fun z => Complex.abs z)
          (rfft (List.zipWith (· * ·) data (hanning data.length))))) =
    amendedSpectrumDb data
  rw [List.map_map, List.map_map]
  rfl

/-- Each harmonic term sampled at `θ = 0` and `θ = 2π` with
`wave_time = -π`: the difference collapses by product formula to
`2·sin(π·factor)·cos(phase_offset)`. -/
lemma harmonic_term_gap (f po : ℝ) :
    Real.sin (2*π * f + (-π * f + po + 0)) - Real.sin (0 * f + (-π * f + po + 0)) =
      2 * Real.sin (π * f) * Real.cos po := by
  rw [Real.sin_sub_sin,
    show (2*π * f + (-π * f + po + 0) - (0 * f + (-π * f + po + 0))) / 2 = π * f by ring,
    show (2*π * f + (-π * f + po + 0) + (0 * f + (-π * f + po + 0))) / 2 = po by ring]

set_option maxHeartbeats 1000000 in
/-- C4: the claim (and the code's own comments at
circular_visualizer.py:71 and 222) say the harmonic wave is closed —
`wave(θ) ≈ wave(θ + 2π)`, so the first (`θ = 0`) and last (`θ = 2π`)
angular samples coincide.  The harmonic factors `0.1 … 0.9` are not
integers, so the sinusoids are not `2π`-periodic: at
`wave_time = -π, breath_phase = 3π/2` the last sample exceeds the first by
at least `0.02` (in the units of the unscaled wave, whose total harmonic
weight is `1`), so the samples do not coincide. -/
theorem C4_wave_not_closed :
    1/50 ≤ harmonicWave (-π) (3*π/2) 0 (2*π) - harmonicWave (-π) (3*π/2) 0 0 ∧
    harmonicWave (-π) (3*π/2) 0 (2*π) ≠ harmonicWave (-π) (3*π/2) 0 0 := by
  have hpi3 := Real.pi_gt_three
  have k1 := harmonic_term_gap (1/10) 0
  have k2 := harmonic_term_gap (3/10) (1/2)
  have k3 := harmonic_term_gap (1/2) 1
  have k4 := harmonic_term_gap (7/10) (3/2)
  have k5 := harmonic_term_gap (9/10) 2
  rw [Real.cos_zero] at k1
  rw [show π * (1/2) = π/2 by ring, Real.sin_pi_div_two] at k3
  have hb : Real.sin (3*π/2 + 2*π * (1/2)) - Real.sin (3*π/2 + 0 * (1/2)) = 2 := by
    rw [show 3*π/2 + 2*π * (1/2) = π/2 + 2*π by ring, Real.sin_add_two_pi,
      Real.sin_pi_div_two, show 3*π/2 + 0 * (1/2) = π/2 + π by ring,
      Real.sin_add_pi, Real.sin_pi_div_two]
    norm_num
  have b1 : 0 ≤ Real.sin (π * (1/10)) :=
    Real.sin_nonneg_of_nonneg_of_le_pi (by positivity) (by nlinarith)
  have b2 : 0 ≤ Real.sin (π * (3/10)) :=
    Real.sin_nonneg_of_nonneg_of_le_pi (by positivity) (by nlinarith)
  have b4 : 0 ≤ Real.sin (π * (7/10)) :=
    Real.sin_nonneg_of_nonneg_of_le_pi (by positivity) (by nlinarith)
  have b5 : 0 ≤ Real.sin (π * (9/10)) :=
    Real.sin_nonneg_of_nonneg_of_le_pi (by positivity) (by nlinarith)
  have s5 : Real.sin (π * (9/10)) ≤ 1 := Real.sin_le_one _
  have c05 : 0 ≤ Real.cos (1/2) :=
    Real.cos_nonneg_of_mem_Icc ⟨by nlinarith, by nlinarith⟩
  have c1 : 0 ≤ Real.cos 1 :=
    Real.cos_nonneg_of_mem_Icc ⟨by nlinarith, by nlinarith⟩
  have c15 : 0 ≤ Real.cos (3/2) :=
    Real.cos_nonneg_of_mem_Icc ⟨by nlinarith, by nlinarith⟩
  have c2 : -1 ≤ Real.cos 2 := Real.neg_one_le_cos 2
  have m2 : 0 ≤ Real.sin (π * (3/10)) * Real.cos (1/2) := mul_nonneg b2 c05
  have m4 : 0 ≤ Real.sin (π * (7/10)) * Real.cos (3/2) := mul_nonneg b4 c15
  have m5a : 0 ≤ Real.sin (π * (9/10)) * (Real.cos 2 + 1) :=
    mul_nonneg b5 (by linarith)
  have m5 : -1 ≤ Real.sin (π * (9/10)) * Real.cos 2 := by nlinarith
  have hgap : 1/50 ≤ harmonicWave (-π) (3*π/2) 0 (2*π) - harmonicWave (-π) (3*π/2) 0 0 := by
    simp only [harmonicWave, harmonic_factors, harmonic_weights, phase_offsets,
      List.zip_cons_cons, List.zip_nil_right, List.map_cons, List.map_nil,
      List.sum_cons, List.sum_nil, harmonicTerm, breath_depth]
    linarith [k1, k2, k3, k4, k5, hb, b1, c1, m2, m4, m5]
  exact ⟨hgap, by intro h; rw [h] at hgap; linarith⟩

end WinAudioVisualizer
